import Mathlib

/-!
Shallow embedding of the obj-to-pathfinding-grid core (src/geometry.rs and
src/lib.rs).  Rust `f32` values are modelled as exact rationals, `u32` as `Nat`
and `i32` as `Int`; `f32::round` (round half away from zero) is modelled by
`rustRound`.  The external grid sink is modelled by the ordered list of
`set_obstacle` calls that `convert` issues, and the progress sink by the list
of reported percentages.
-/

attribute [local semireducible] Rat.mul Rat.add Rat.sub Rat.inv Rat.ofScientific

/-- 3D vector over the rationals, modelling nalgebra `Vector3<f32>`. -/
@[ext] structure Vec3 where
  x : ℚ
  y : ℚ
  z : ℚ
deriving DecidableEq, Repr

/-- 3D vector over the integers, modelling nalgebra `Vector3<i32>`. -/
@[ext] structure Vec3i where
  x : ℤ
  y : ℤ
  z : ℤ
deriving DecidableEq, Repr

namespace Vec3

/-- Componentwise subtraction, as used by nalgebra. -/
instance : Sub Vec3 := ⟨fun a b => ⟨a.x - b.x, a.y - b.y, a.z - b.z⟩⟩

/-- Componentwise negation. -/
instance : Neg Vec3 := ⟨fun a => ⟨-a.x, -a.y, -a.z⟩⟩

/-- Dot product, modelling nalgebra `dot`. -/
def dot (a b : Vec3) : ℚ := a.x * b.x + a.y * b.y + a.z * b.z

/-- Cross product, modelling nalgebra `cross`. -/
def cross (a b : Vec3) : Vec3 :=
  ⟨a.y * b.z - a.z * b.y, a.z * b.x - a.x * b.z, a.x * b.y - a.y * b.x⟩

/-- Componentwise scaling, modelling nalgebra `scale`. -/
def scale (a : Vec3) (s : ℚ) : Vec3 := ⟨a.x * s, a.y * s, a.z * s⟩

@[simp] lemma sub_x (a b : Vec3) : (a - b).x = a.x - b.x := rfl

@[simp] lemma sub_y (a b : Vec3) : (a - b).y = a.y - b.y := rfl

@[simp] lemma sub_z (a b : Vec3) : (a - b).z = a.z - b.z := rfl

@[simp] lemma neg_x (a : Vec3) : (-a).x = -a.x := rfl

@[simp] lemma neg_y (a : Vec3) : (-a).y = -a.y := rfl

@[simp] lemma neg_z (a : Vec3) : (-a).z = -a.z := rfl

end Vec3

/-- `f32::round` in Rust: round to nearest, halves away from zero. -/
def rustRound (q : ℚ) : ℤ := if 0 ≤ q then ⌊q + 1 / 2⌋ else ⌈q - 1 / 2⌉

/-- Grid-local coordinate (`LocalVector` in src/geometry.rs): `u32` components. -/
@[ext] structure LocalVector where
  x : ℕ
  y : ℕ
  z : ℕ
deriving DecidableEq, Repr

namespace LocalVector

/-- `LocalVector::new`. -/
def new (x y z : ℕ) : LocalVector := ⟨x, y, z⟩

/-- `LocalVector::from_world_vector` (src/geometry.rs): converts a world vector
to a grid local vector; out-of-bounds points are clamped to the border.
`.max(0) as u32` is modelled by `Int.toNat`, `.min(width)` by `Nat.min`. -/
def from_world_vector (vector center : Vec3) (width height : ℕ) : LocalVector :=
  let diff := center - vector
  let half_width : ℕ := width / 2
  let half_height : ℕ := height / 2
  let mx : ℕ := ((half_width : ℤ) - rustRound diff.x).toNat
  let my : ℕ := ((half_width : ℤ) - rustRound diff.y).toNat
  let mz : ℕ := ((half_height : ℤ) - rustRound diff.z).toNat
  ⟨Nat.min mx width, Nat.min my width, Nat.min mz height⟩

/-- `LocalVector::to_world_vector` (src/geometry.rs). -/
def to_world_vector (v : LocalVector) (center : Vec3) (width height : ℕ) : Vec3i :=
  let half_width : ℕ := width / 2
  let half_height : ℕ := height / 2
  let min_x : ℤ := rustRound center.x - (half_width : ℤ)
  let min_y : ℤ := rustRound center.y - (half_width : ℤ)
  let min_z : ℤ := rustRound center.z - (half_height : ℤ)
  ⟨min_x + (v.x : ℤ), min_y + (v.y : ℤ), min_z + (v.z : ℤ)⟩

end LocalVector

/-- Axis-aligned bounding box (src/geometry.rs). -/
@[ext] structure BoundingBox where
  min : Vec3
  max : Vec3
deriving DecidableEq, Repr

/-- Triangle with three world-space vertices (src/geometry.rs). -/
@[ext] structure Triangle where
  a : Vec3
  b : Vec3
  c : Vec3
deriving DecidableEq, Repr

/-- `min_max_overlaps` (src/geometry.rs): true when the three projections lie
entirely beyond one side of the box extent. -/
def min_max_overlaps (box_half_size v0 v1 v2 : ℚ) : Bool :=
  let mn := Min.min (Min.min v0 v1) v2
  let mx := Max.max (Max.max v0 v1) v2
  decide (mn > box_half_size ∨ mx < -box_half_size)

/-- `axis_test` (src/geometry.rs): separating-axis sub-test projecting two
triangle vertices and the box half-extent onto an edge-cross-axis axis. -/
def axis_test (edge_axis1 edge_axis2 point1_axis1 point1_axis2 point2_axis1
    point2_axis2 box_half_size_axis1 box_half_size_axis2 : ℚ) (sign : Bool) : Bool :=
  let p1 := if sign then edge_axis1 * point1_axis1 + edge_axis2 * point1_axis2
            else edge_axis1 * point1_axis1 - edge_axis2 * point1_axis2
  let p2 := if sign then edge_axis1 * point2_axis1 + edge_axis2 * point2_axis2
            else edge_axis1 * point2_axis1 - edge_axis2 * point2_axis2
  let mn := Min.min p1 p2
  let mx := Max.max p1 p2
  let radius := |edge_axis1| * box_half_size_axis1 + |edge_axis2| * box_half_size_axis2
  !(decide (mn > radius ∨ mx < -radius))

/-- `axis_test_zy` (src/geometry.rs). -/
def axis_test_zy (point1 point2 box_half_size edge : Vec3) : Bool :=
  axis_test edge.z edge.y point1.y point1.z point2.y point2.z
    box_half_size.y box_half_size.z false

/-- `axis_test_mzx` (src/geometry.rs). -/
def axis_test_mzx (point1 point2 box_half_size edge : Vec3) : Bool :=
  axis_test (-edge.z) edge.x point1.x point1.z point2.x point2.z
    box_half_size.x box_half_size.z true

/-- `axis_test_yx` (src/geometry.rs). -/
def axis_test_yx (point1 point2 box_half_size edge : Vec3) : Bool :=
  axis_test edge.y edge.x point1.x point1.y point2.x point2.y
    box_half_size.x box_half_size.y false

/-- The `v_min` corner built by `Triangle::is_inside` (src/geometry.rs):
per-axis sign chosen by the triangle normal's component. -/
def plane_v_min (normal box_half_size : Vec3) : Vec3 :=
  ⟨if 0 < normal.x then -box_half_size.x else box_half_size.x,
   if 0 < normal.y then -box_half_size.y else box_half_size.y,
   if 0 < normal.z then -box_half_size.z else box_half_size.z⟩

/-- The `v_max` corner built by `Triangle::is_inside` (src/geometry.rs). -/
def plane_v_max (normal box_half_size : Vec3) : Vec3 :=
  ⟨if 0 < normal.x then box_half_size.x else -box_half_size.x,
   if 0 < normal.y then box_half_size.y else -box_half_size.y,
   if 0 < normal.z then box_half_size.z else -box_half_size.z⟩

/-- First plane rejection in `Triangle::is_inside`: `normal.dot(v_min) + d > 0`. -/
def plane_rejects_min (normal : Vec3) (d : ℚ) (box_half_size : Vec3) : Bool :=
  decide (0 < Vec3.dot normal (plane_v_min normal box_half_size) + d)

/-- Second plane rejection in `Triangle::is_inside`: `normal.dot(v_max) + d < 0`. -/
def plane_rejects_max (normal : Vec3) (d : ℚ) (box_half_size : Vec3) : Bool :=
  decide (Vec3.dot normal (plane_v_max normal box_half_size) + d < 0)

/-- `Triangle::is_inside` (src/geometry.rs): SAT overlap test between the
triangle and the unit cube centered at `vector`.  The Rust guard-clause chain
(each failed test returns `false`) is rendered as a conjunction. -/
def Triangle.is_inside (t : Triangle) (vector : Vec3i) : Bool :=
  let box_center : Vec3 := ⟨(vector.x : ℚ), (vector.y : ℚ), (vector.z : ℚ)⟩
  let box_half_size : Vec3 := ⟨1 / 2, 1 / 2, 1 / 2⟩
  let v0 := t.a - box_center
  let v1 := t.b - box_center
  let v2 := t.c - box_center
  let e0 := v1 - v0
  let e1 := v2 - v1
  let e2 := v0 - v2
  let normal := Vec3.cross e0 e1
  let d := -(Vec3.dot normal v0)
  !(min_max_overlaps box_half_size.x v0.x v1.x v2.x) &&
  !(min_max_overlaps box_half_size.y v0.y v1.y v2.y) &&
  !(min_max_overlaps box_half_size.z v0.z v1.z v2.z) &&
  !(plane_rejects_min normal d box_half_size) &&
  !(plane_rejects_max normal d box_half_size) &&
  axis_test_zy v0 v2 box_half_size e0 &&
  axis_test_mzx v0 v2 box_half_size e0 &&
  axis_test_yx v1 v2 box_half_size e0 &&
  axis_test_zy v0 v2 box_half_size e1 &&
  axis_test_mzx v0 v2 box_half_size e1 &&
  axis_test_yx v0 v1 box_half_size e1 &&
  axis_test_zy v0 v1 box_half_size e2 &&
  axis_test_mzx v0 v1 box_half_size e2 &&
  axis_test_yx v1 v2 box_half_size e2

/-- `Triangle::scale` (src/geometry.rs). -/
def Triangle.scale (t : Triangle) (s : ℚ) : Triangle :=
  ⟨t.a.scale s, t.b.scale s, t.c.scale s⟩

/-- `Triangle::bounding_box` (src/geometry.rs): componentwise min/max of the
vertices, inflated by one unit in every direction. -/
def Triangle.bounding_box (t : Triangle) : BoundingBox :=
  let min_x := Min.min (Min.min t.a.x t.b.x) t.c.x - 1
  let min_y := Min.min (Min.min t.a.y t.b.y) t.c.y - 1
  let min_z := Min.min (Min.min t.a.z t.b.z) t.c.z - 1
  let max_x := Max.max (Max.max t.a.x t.b.x) t.c.x + 1
  let max_y := Max.max (Max.max t.a.y t.b.y) t.c.y + 1
  let max_z := Max.max (Max.max t.a.z t.b.z) t.c.z + 1
  ⟨⟨min_x, min_y, min_z⟩, ⟨max_x, max_y, max_z⟩⟩

/-- `find_obstacles` (src/lib.rs): scans every local coordinate of the
triangle's local bounding box and keeps those whose voxel the triangle
intersects.  The three nested Rust `for` ranges over `min..max` are modelled
by `List.range'` (empty when `max ≤ min`). -/
def find_obstacles (triangle : Triangle) (center : Vec3) (width height : ℕ) :
    List LocalVector :=
  let bounding_box := triangle.bounding_box
  let mn := LocalVector.from_world_vector bounding_box.min center width height
  let mx := LocalVector.from_world_vector bounding_box.max center width height
  (List.range' mn.x (mx.x - mn.x)).flatMap (fun x =>
    (List.range' mn.y (mx.y - mn.y)).flatMap (fun y =>
      (List.range' mn.z (mx.z - mn.z)).filterMap (fun z =>
        let local_vector := LocalVector.new x y z
        let global_vector := local_vector.to_world_vector center width height
        if triangle.is_inside global_vector then some local_vector else none)))

/-- Spec-side enumeration (§4.3 step 2-4 of the spec): every integer local
coordinate of the half-open box `[mn, mx)`, in ascending x, then y, then z
order. -/
def scan_box (mn mx : LocalVector) : List LocalVector :=
  (List.range' mn.x (mx.x - mn.x)).flatMap (fun x =>
    (List.range' mn.y (mx.y - mn.y)).flatMap (fun y =>
      (List.range' mn.z (mx.z - mn.z)).map (fun z => LocalVector.new x y z)))

/-- Spec-side obstacle scanner, following the spec's words: map the inflated
bounding box corners to local space, enumerate the half-open scan box in
ascending order, and keep the coordinates whose world re-projection passes the
SAT test against the original triangle. -/
def find_obstacles_spec (triangle : Triangle) (center : Vec3) (width height : ℕ) :
    List LocalVector :=
  let bb := triangle.bounding_box
  let mn := LocalVector.from_world_vector bb.min center width height
  let mx := LocalVector.from_world_vector bb.max center width height
  (scan_box mn mx).filter
    (fun lv => triangle.is_inside (lv.to_world_vector center width height))

/-- A preprocessor (the `Preprocessor` trait of src/lib.rs) is modelled as a
function from a triangle and the grid parameters to an optional replacement
triangle; `none` is the skip signal. -/
def PreprocessorFun : Type :=
  Triangle → ℕ → ℕ → Vec3 → Option Triangle

/-- `NoOpPreprocessor` (src/lib.rs): always passes the triangle through. -/
def NoOpPreprocessor : PreprocessorFun := fun triangle _ _ _ => some triangle

/-- Result of `convert` (src/lib.rs) at the boundary with its external
collaborators: the ordered list of `set_obstacle(x, y, z)` calls issued to the
grid sink, and the ordered list of percentages reported to the progress sink. -/
structure ConvertResult where
  set_obstacle_calls : List LocalVector
  progress_calls : List ℚ
deriving DecidableEq, Repr

/-- One iteration of the `for triangle in triangles` loop of `convert`
(src/lib.rs): run the preprocessor, extend the obstacle accumulator unless the
triangle was skipped, bump `current` and report the percentage. -/
def convert_step (pre : PreprocessorFun) (center : Vec3) (width height length : ℕ)
    (acc : List LocalVector × List ℚ × ℕ) (triangle : Triangle) :
    List LocalVector × List ℚ × ℕ :=
  let obstacles := acc.1
  let calls := acc.2.1
  let current := acc.2.2 + 1
  let obstacles :=
    match pre triangle width height center with
    | some processed_triangle =>
        obstacles ++ find_obstacles processed_triangle center width height
    | none => obstacles
  let percent : ℚ := (current : ℚ) * 100 / (length : ℚ)
  (obstacles, calls ++ [percent], current)

/-- `convert` (src/lib.rs), modelled at its external interfaces: the grid is
`Grid::new(width, height)` followed by one `set_obstacle` call per accumulated
obstacle, in order, and the progress sink receives one percentage per
triangle. -/
def convert (triangles : List Triangle) (center : Vec3) (width height : ℕ)
    (pre : PreprocessorFun) : ConvertResult :=
  let res := triangles.foldl (convert_step pre center width height triangles.length)
    ([], [], 0)
  ⟨res.1, res.2.1⟩

/-- `bounding_box` (src/lib.rs): componentwise min/max of the rounded corners
of the per-triangle inflated bounding boxes, `0` for the empty mesh. -/
def bounding_box (triangles : List Triangle) : BoundingBox :=
  let bounding_boxes := triangles.map Triangle.bounding_box
  let min_x : ℚ :=
    (((((bounding_boxes.map BoundingBox.min).map (fun m => rustRound m.x)).min?).getD 0 : ℤ) : ℚ)
  let min_y : ℚ :=
    (((((bounding_boxes.map BoundingBox.min).map (fun m => rustRound m.y)).min?).getD 0 : ℤ) : ℚ)
  let min_z : ℚ :=
    (((((bounding_boxes.map BoundingBox.min).map (fun m => rustRound m.z)).min?).getD 0 : ℤ) : ℚ)
  let max_x : ℚ :=
    (((((bounding_boxes.map BoundingBox.max).map (fun m => rustRound m.x)).max?).getD 0 : ℤ) : ℚ)
  let max_y : ℚ :=
    (((((bounding_boxes.map BoundingBox.max).map (fun m => rustRound m.y)).max?).getD 0 : ℤ) : ℚ)
  let max_z : ℚ :=
    (((((bounding_boxes.map BoundingBox.max).map (fun m => rustRound m.z)).max?).getD 0 : ℤ) : ℚ)
  ⟨⟨min_x, min_y, min_z⟩, ⟨max_x, max_y, max_z⟩⟩

/-- Conversion of an integer vector back to the rational world space, as when
a `Vector3<i32>` voxel center is compared against `f32` triangle data. -/
def Vec3i.toVec3 (v : Vec3i) : Vec3 := ⟨(v.x : ℚ), (v.y : ℚ), (v.z : ℚ)⟩

/-- Strict lexicographic order on local coordinates: ascending x, then y,
then z — the enumeration order required by the spec. -/
def LocalVector.lexLt (a b : LocalVector) : Prop :=
  a.x < b.x ∨ (a.x = b.x ∧ (a.y < b.y ∨ (a.y = b.y ∧ a.z < b.z)))

/-- The obstacles contributed by a triangle list under a preprocessor: the
skip signal contributes nothing.  This is what the `obstacles` accumulator of
`convert` holds after the loop. -/
def processed_obstacles (pre : PreprocessorFun) (center : Vec3) (width height : ℕ)
    (triangles : List Triangle) : List LocalVector :=
  triangles.flatMap (fun t =>
    (pre t width height center).elim [] (fun pt => find_obstacles pt center width height))

/-- A preprocessor that discards every triangle (always returns the skip
signal). -/
def skip_all_pre : PreprocessorFun := fun _ _ _ _ => none

/-- `Triangle::is_inside` with the plane-test stage removed: only the AABB
rejection and the nine edge-axis tests remain. -/
def is_inside_no_plane (t : Triangle) (vector : Vec3i) : Bool :=
  let box_center : Vec3 := ⟨(vector.x : ℚ), (vector.y : ℚ), (vector.z : ℚ)⟩
  let box_half_size : Vec3 := ⟨1 / 2, 1 / 2, 1 / 2⟩
  let v0 := t.a - box_center
  let v1 := t.b - box_center
  let v2 := t.c - box_center
  let e0 := v1 - v0
  let e1 := v2 - v1
  let e2 := v0 - v2
  !(min_max_overlaps box_half_size.x v0.x v1.x v2.x) &&
  !(min_max_overlaps box_half_size.y v0.y v1.y v2.y) &&
  !(min_max_overlaps box_half_size.z v0.z v1.z v2.z) &&
  axis_test_zy v0 v2 box_half_size e0 &&
  axis_test_mzx v0 v2 box_half_size e0 &&
  axis_test_yx v1 v2 box_half_size e0 &&
  axis_test_zy v0 v2 box_half_size e1 &&
  axis_test_mzx v0 v2 box_half_size e1 &&
  axis_test_yx v0 v1 box_half_size e1 &&
  axis_test_zy v0 v1 box_half_size e2 &&
  axis_test_mzx v0 v1 box_half_size e2 &&
  axis_test_yx v1 v2 box_half_size e2

/-- A degenerate triangle with three distinct collinear vertices; its plane
normal is the zero vector and the segment passes through the voxel at the
origin. -/
def T_degenerate : Triangle := ⟨⟨0, 0, 0⟩, ⟨1, 1, 0⟩, ⟨2, 2, 0⟩⟩

/-- A point triangle used as a small concrete scan scenario. -/
def T_point : Triangle := ⟨⟨0, 0, 0⟩, ⟨0, 0, 0⟩, ⟨0, 0, 0⟩⟩

/-- The triangle of the repository's `test_find_obstacles` test. -/
def T_diag : Triangle := ⟨⟨0, 0, 0⟩, ⟨5, 5, 0⟩, ⟨-5, -5, 0⟩⟩

/-- The separating axis `edge × X` used by `axis_test_zy`. -/
def edgeAxisX (e : Vec3) : Vec3 := ⟨0, e.z, -e.y⟩

/-- The separating axis `edge × Y` used by `axis_test_mzx`. -/
def edgeAxisY (e : Vec3) : Vec3 := ⟨-e.z, 0, e.x⟩

/-- The separating axis `edge × Z` used by `axis_test_yx`. -/
def edgeAxisZ (e : Vec3) : Vec3 := ⟨e.y, -e.x, 0⟩

/-- Projection radius of the half-unit box onto an axis. -/
def axisRadius (a : Vec3) : ℚ := |a.x| * (1 / 2) + |a.y| * (1 / 2) + |a.z| * (1 / 2)

/-- Two-point separation along an axis: the projections of `p` and `q` both
lie beyond the same side of the box's projection radius. -/
def sep2 (a p q : Vec3) : Prop :=
  axisRadius a < Min.min (Vec3.dot a p) (Vec3.dot a q) ∨
  Max.max (Vec3.dot a p) (Vec3.dot a q) < -axisRadius a

/-- Three-point separation along an axis: the vertex-order-free form of the
edge-axis sub-tests. -/
def axisSep (a v0 v1 v2 : Vec3) : Prop :=
  axisRadius a < Min.min (Min.min (Vec3.dot a v0) (Vec3.dot a v1)) (Vec3.dot a v2) ∨
  Max.max (Max.max (Vec3.dot a v0) (Vec3.dot a v1)) (Vec3.dot a v2) < -axisRadius a

/-- Coordinate-axis separation of the recentered vertices (the AABB stage),
as a proposition. -/
def mmSep (u0 u1 u2 : ℚ) : Prop :=
  (1 : ℚ) / 2 < Min.min (Min.min u0 u1) u2 ∨ Max.max (Max.max u0 u1) u2 < -(1 / 2)

/-- Plane separation: the voxel lies strictly on one side of the triangle's
plane (`|d|` exceeds the box's projection radius onto the normal). -/
def planeSep (n : Vec3) (d : ℚ) : Prop := axisRadius n < |d|

/-- All nine conditions of `Triangle::is_inside` for one edge, in
vertex-order-free form. -/
def edgeOK (e v0 v1 v2 : Vec3) : Prop :=
  ¬axisSep (edgeAxisX e) v0 v1 v2 ∧ ¬axisSep (edgeAxisY e) v0 v1 v2 ∧
  ¬axisSep (edgeAxisZ e) v0 v1 v2

/-- Vertex-order-free characterisation of `Triangle::is_inside` on the
recentered vertices. -/
def satProp (v0 v1 v2 : Vec3) : Prop :=
  ¬mmSep v0.x v1.x v2.x ∧ ¬mmSep v0.y v1.y v2.y ∧ ¬mmSep v0.z v1.z v2.z ∧
  ¬planeSep (Vec3.cross (v1 - v0) (v2 - v1))
    (-(Vec3.dot (Vec3.cross (v1 - v0) (v2 - v1)) v0)) ∧
  edgeOK (v1 - v0) v0 v1 v2 ∧ edgeOK (v2 - v1) v0 v1 v2 ∧ edgeOK (v0 - v2) v0 v1 v2

lemma filterMap_ite_eq_filter_map {α β : Type _} (p : α → Bool) (f : β → α) (l : List β) :
    (l.filterMap fun z => if p (f z) then some (f z) else none) = (l.map f).filter p := by
  induction l with
  | nil => rfl
  | cons a l ih => cases h : p (f a) <;> simp [List.filterMap_cons, List.filter_cons, h, ih]

lemma filter_flatMap_comm {α β : Type _} (l : List α) (g : α → List β) (p : β → Bool) :
    (l.flatMap g).filter p = l.flatMap fun a => (g a).filter p := by
  induction l with
  | nil => rfl
  | cons a l ih => simp [List.flatMap_cons, List.filter_append, ih]

lemma scan_filter (mn mx : LocalVector) (p : LocalVector → Bool) :
    (List.range' mn.x (mx.x - mn.x)).flatMap (fun x =>
      (List.range' mn.y (mx.y - mn.y)).flatMap (fun y =>
        (List.range' mn.z (mx.z - mn.z)).filterMap (fun z =>
          if p (LocalVector.new x y z) then some (LocalVector.new x y z) else none))) =
    (scan_box mn mx).filter p := by
  unfold scan_box
  rw [filter_flatMap_comm]
  congr 1
  funext x
  rw [filter_flatMap_comm]
  congr 1
  funext y
  exact filterMap_ite_eq_filter_map p (LocalVector.new x y) _

lemma find_obstacles_eq_spec (t : Triangle) (c : Vec3) (w h : ℕ) :
    find_obstacles t c w h = find_obstacles_spec t c w h := by
  simp only [find_obstacles, find_obstacles_spec]
  exact scan_filter _ _ (fun lv => t.is_inside (lv.to_world_vector c w h))

lemma mem_scan_box (mn mx lv : LocalVector) :
    lv ∈ scan_box mn mx ↔
      (mn.x ≤ lv.x ∧ lv.x < mx.x) ∧ (mn.y ≤ lv.y ∧ lv.y < mx.y) ∧
      (mn.z ≤ lv.z ∧ lv.z < mx.z) := by
  obtain ⟨a, b, c⟩ := lv
  unfold scan_box
  simp only [List.mem_flatMap, List.mem_map, List.mem_range'_1, LocalVector.new]
  constructor
  · rintro ⟨x, hx, y, hy, z, hz, h⟩
    cases h
    exact ⟨⟨by omega, by omega⟩, ⟨by omega, by omega⟩, by omega, by omega⟩
  · rintro ⟨⟨h1, h2⟩, ⟨h3, h4⟩, h5, h6⟩
    exact ⟨a, by omega, b, by omega, c, by omega, rfl⟩

lemma pairwise_scan_box (mn mx : LocalVector) :
    List.Pairwise LocalVector.lexLt (scan_box mn mx) := by
  unfold scan_box
  rw [List.pairwise_flatMap]
  constructor
  · intro x _
    rw [List.pairwise_flatMap]
    constructor
    · intro y _
      rw [List.pairwise_map]
      refine (List.pairwise_lt_range' _ _ 1 (by omega)).imp ?_
      intro z1 z2 hz
      exact Or.inr ⟨rfl, Or.inr ⟨rfl, hz⟩⟩
    · refine (List.pairwise_lt_range' _ _ 1 (by omega)).imp ?_
      intro y1 y2 hy lv1 h1 lv2 h2
      obtain ⟨z1, _, rfl⟩ := List.mem_map.mp h1
      obtain ⟨z2, _, rfl⟩ := List.mem_map.mp h2
      exact Or.inr ⟨rfl, Or.inl hy⟩
  · refine (List.pairwise_lt_range' _ _ 1 (by omega)).imp ?_
    intro x1 x2 hx lv1 h1 lv2 h2
    obtain ⟨y1, _, hm1⟩ := List.mem_flatMap.mp h1
    obtain ⟨z1, _, rfl⟩ := List.mem_map.mp hm1
    obtain ⟨y2, _, hm2⟩ := List.mem_flatMap.mp h2
    obtain ⟨z2, _, rfl⟩ := List.mem_map.mp hm2
    exact Or.inl hx

/-- Claim C1: `find_obstacles` enumerates exactly the integer local
coordinates of the half-open box `[min_local, max_local)` obtained by mapping
the inflated bounding box corners through the coordinate mapper, keeps exactly
those whose world re-projection passes `is_inside` against the original
triangle, returns them in ascending x, then y, then z order, and on the
reference triangle with center `(0,0,0)` and a 10×10 grid produces the
28-voxel diagonal band at local z = 5. -/
theorem c1_find_obstacles_scan :
    (∀ (t : Triangle) (c : Vec3) (w h : ℕ),
      find_obstacles t c w h = find_obstacles_spec t c w h) ∧
    (∀ (t : Triangle) (c : Vec3) (w h : ℕ) (lv : LocalVector),
      lv ∈ find_obstacles t c w h ↔
        (((LocalVector.from_world_vector t.bounding_box.min c w h).x ≤ lv.x ∧
            lv.x < (LocalVector.from_world_vector t.bounding_box.max c w h).x) ∧
          ((LocalVector.from_world_vector t.bounding_box.min c w h).y ≤ lv.y ∧
            lv.y < (LocalVector.from_world_vector t.bounding_box.max c w h).y) ∧
          ((LocalVector.from_world_vector t.bounding_box.min c w h).z ≤ lv.z ∧
            lv.z < (LocalVector.from_world_vector t.bounding_box.max c w h).z)) ∧
        t.is_inside (lv.to_world_vector c w h) = true) ∧
    (∀ (t : Triangle) (c : Vec3) (w h : ℕ),
      List.Pairwise LocalVector.lexLt (find_obstacles t c w h)) ∧
    find_obstacles T_diag ⟨0, 0, 0⟩ 10 10 =
      [⟨0, 0, 5⟩, ⟨0, 1, 5⟩, ⟨1, 0, 5⟩, ⟨1, 1, 5⟩, ⟨1, 2, 5⟩, ⟨2, 1, 5⟩,
       ⟨2, 2, 5⟩, ⟨2, 3, 5⟩, ⟨3, 2, 5⟩, ⟨3, 3, 5⟩, ⟨3, 4, 5⟩, ⟨4, 3, 5⟩,
       ⟨4, 4, 5⟩, ⟨4, 5, 5⟩, ⟨5, 4, 5⟩, ⟨5, 5, 5⟩, ⟨5, 6, 5⟩, ⟨6, 5, 5⟩,
       ⟨6, 6, 5⟩, ⟨6, 7, 5⟩, ⟨7, 6, 5⟩, ⟨7, 7, 5⟩, ⟨7, 8, 5⟩, ⟨8, 7, 5⟩,
       ⟨8, 8, 5⟩, ⟨8, 9, 5⟩, ⟨9, 8, 5⟩, ⟨9, 9, 5⟩] := by
  refine ⟨find_obstacles_eq_spec, ?_, ?_, by decide⟩
  · intro t c w h lv
    rw [find_obstacles_eq_spec]
    simp only [find_obstacles_spec, List.mem_filter, mem_scan_box]
  · intro t c w h
    rw [find_obstacles_eq_spec]
    simp only [find_obstacles_spec]
    exact List.Pairwise.sublist (List.filter_sublist _) (pairwise_scan_box _ _)

/-- Claim C3: for positive grid extents, `from_world_vector` always returns a
coordinate with `x, y ≤ width` and `z ≤ height`, however far the world point
is from the center — out-of-range points are pinned to the border. -/
theorem c3_to_local_clamped (vector center : Vec3) (width height : ℕ)
    (hw : 0 < width) (hh : 0 < height) :
    (LocalVector.from_world_vector vector center width height).x ≤ width ∧
    (LocalVector.from_world_vector vector center width height).y ≤ width ∧
    (LocalVector.from_world_vector vector center width height).z ≤ height :=
  ⟨Nat.min_le_right _ _, Nat.min_le_right _ _, Nat.min_le_right _ _⟩

/-- Witness for claim C3 at a concrete far-away world point. -/
theorem c3_to_local_clamped_witness :
    0 < 10 ∧ 0 < 6 ∧
    ((LocalVector.from_world_vector ⟨1000, -1000, 1 / 3⟩ ⟨0, 0, 0⟩ 10 6).x ≤ 10 ∧
     (LocalVector.from_world_vector ⟨1000, -1000, 1 / 3⟩ ⟨0, 0, 0⟩ 10 6).y ≤ 10 ∧
     (LocalVector.from_world_vector ⟨1000, -1000, 1 / 3⟩ ⟨0, 0, 0⟩ 10 6).z ≤ 6) :=
  ⟨by decide, by decide, c3_to_local_clamped _ _ _ _ (by decide) (by decide)⟩

/-- Claim C7: `to_local` and `to_world` are not exact inverses — clamping and
rounding lose information that the offset-only `to_world` cannot recover. -/
theorem c7_mapper_not_exact_inverse :
    ∃ (v : LocalVector) (center : Vec3) (width height : ℕ),
      LocalVector.from_world_vector
        ((v.to_world_vector center width height).toVec3) center width height ≠ v :=
  ⟨⟨5, 5, 5⟩, ⟨0, 0, 0⟩, 1, 1, by decide⟩

/-- Claim C10: the public `bounding_box` returns the degenerate all-zero box
for the empty triangle list, and in general the componentwise minimum (resp.
maximum) of the per-triangle inflated, rounded box corners. -/
theorem c10_bounding_box_total :
    bounding_box [] = ⟨⟨0, 0, 0⟩, ⟨0, 0, 0⟩⟩ ∧
    ∀ triangles : List Triangle,
      bounding_box triangles =
        ⟨⟨(((triangles.map (fun t => rustRound t.bounding_box.min.x)).min?.getD 0 : ℤ) : ℚ),
          (((triangles.map (fun t => rustRound t.bounding_box.min.y)).min?.getD 0 : ℤ) : ℚ),
          (((triangles.map (fun t => rustRound t.bounding_box.min.z)).min?.getD 0 : ℤ) : ℚ)⟩,
         ⟨(((triangles.map (fun t => rustRound t.bounding_box.max.x)).max?.getD 0 : ℤ) : ℚ),
          (((triangles.map (fun t => rustRound t.bounding_box.max.y)).max?.getD 0 : ℤ) : ℚ),
          (((triangles.map (fun t => rustRound t.bounding_box.max.z)).max?.getD 0 : ℤ) : ℚ)⟩⟩ := by
  constructor
  · decide
  · intro ts
    simp only [bounding_box, List.map_map]
    rfl

lemma convert_step_eq (pre : PreprocessorFun) (c : Vec3) (w h L : ℕ)
    (acc : List LocalVector × List ℚ × ℕ) (t : Triangle) :
    convert_step pre c w h L acc t =
      (acc.1 ++ (pre t w h c).elim [] (fun pt => find_obstacles pt c w h),
       acc.2.1 ++ [((acc.2.2 + 1 : ℕ) : ℚ) * 100 / (L : ℚ)], acc.2.2 + 1) := by
  cases hp : pre t w h c <;> simp [convert_step, hp]

lemma foldl_convert_step (pre : PreprocessorFun) (c : Vec3) (w h L : ℕ)
    (ts : List Triangle) :
    ∀ (obs : List LocalVector) (calls : List ℚ) (n : ℕ),
      ts.foldl (convert_step pre c w h L) (obs, calls, n) =
        (obs ++ processed_obstacles pre c w h ts,
         calls ++ (List.range ts.length).map (fun i => ((n + i + 1 : ℕ) : ℚ) * 100 / (L : ℚ)),
         n + ts.length) := by
  induction ts with
  | nil => intro obs calls n; simp [processed_obstacles]
  | cons t ts ih =>
      intro obs calls n
      rw [List.foldl_cons, convert_step_eq, ih]
      simp only [Prod.mk.injEq]
      refine ⟨?_, ?_, ?_⟩
      · simp [processed_obstacles, List.flatMap_cons, List.append_assoc]
      · rw [List.append_assoc]
        congr 1
        rw [List.length_cons, List.range_succ_eq_map, List.map_cons, List.map_map,
          List.singleton_append]
        have hfun : (fun i => ((n + 1 + i + 1 : ℕ) : ℚ) * 100 / (L : ℚ)) =
            ((fun i => ((n + i + 1 : ℕ) : ℚ) * 100 / (L : ℚ)) ∘ Nat.succ) := by
          funext i
          simp only [Function.comp, Nat.succ_eq_add_one]
          have hn : n + 1 + i + 1 = n + (i + 1) + 1 := by omega
          rw [hn]
        rw [hfun]
      · simp only [List.length_cons]
        omega

lemma convert_set_obstacle_calls_eq (ts : List Triangle) (c : Vec3) (w h : ℕ)
    (pre : PreprocessorFun) :
    (convert ts c w h pre).set_obstacle_calls = processed_obstacles pre c w h ts := by
  simp [convert, foldl_convert_step]

lemma convert_progress_calls_eq (ts : List Triangle) (c : Vec3) (w h : ℕ)
    (pre : PreprocessorFun) :
    (convert ts c w h pre).progress_calls =
      (List.range ts.length).map (fun i => ((i + 1 : ℕ) : ℚ) * 100 / (ts.length : ℚ)) := by
  simp only [convert, foldl_convert_step, List.nil_append, Nat.zero_add]

lemma mem_find_obstacles_le (t : Triangle) (c : Vec3) (w h : ℕ) (lv : LocalVector)
    (hm : lv ∈ find_obstacles t c w h) : lv.x ≤ w ∧ lv.y ≤ w ∧ lv.z ≤ h := by
  rw [find_obstacles_eq_spec] at hm
  simp only [find_obstacles_spec, List.mem_filter, mem_scan_box] at hm
  obtain ⟨⟨⟨_, h1⟩, ⟨_, h2⟩, _, h3⟩, _⟩ := hm
  have b1 : (LocalVector.from_world_vector t.bounding_box.max c w h).x ≤ w :=
    Nat.min_le_right _ _
  have b2 : (LocalVector.from_world_vector t.bounding_box.max c w h).y ≤ w :=
    Nat.min_le_right _ _
  have b3 : (LocalVector.from_world_vector t.bounding_box.max c w h).z ≤ h :=
    Nat.min_le_right _ _
  exact ⟨by omega, by omega, by omega⟩

/-- Claim C4: every coordinate `convert` passes to the grid sink's
`set_obstacle` lies within the declared grid bounds, for any triangle list,
preprocessor, center and extents. -/
theorem c4_convert_writes_in_bounds (triangles : List Triangle) (center : Vec3)
    (width height : ℕ) (pre : PreprocessorFun) (lv : LocalVector)
    (hmem : lv ∈ (convert triangles center width height pre).set_obstacle_calls) :
    lv.x ≤ width ∧ lv.y ≤ width ∧ lv.z ≤ height := by
  rw [convert_set_obstacle_calls_eq] at hmem
  obtain ⟨t, _, hlv⟩ := List.mem_flatMap.mp hmem
  cases hp : pre t width height center with
  | none => rw [hp] at hlv; simp [Option.elim] at hlv
  | some pt =>
      rw [hp] at hlv
      simp only [Option.elim] at hlv
      exact mem_find_obstacles_le pt center width height lv hlv

/-- Witness for claim C4: a concrete written obstacle is within bounds. -/
theorem c4_convert_writes_in_bounds_witness :
    (⟨1, 1, 1⟩ : LocalVector) ∈
      (convert [T_point] ⟨0, 0, 0⟩ 2 2 NoOpPreprocessor).set_obstacle_calls ∧
    ((⟨1, 1, 1⟩ : LocalVector).x ≤ 2 ∧ (⟨1, 1, 1⟩ : LocalVector).y ≤ 2 ∧
      (⟨1, 1, 1⟩ : LocalVector).z ≤ 2) :=
  ⟨by decide,
   c4_convert_writes_in_bounds [T_point] ⟨0, 0, 0⟩ 2 2 NoOpPreprocessor ⟨1, 1, 1⟩
     (by decide)⟩

/-- Claim C5: `convert` reports progress exactly once per triangle, in input
order, with percent `current × 100 / length`; the percentages are
monotonically non-decreasing and the last report is exactly 100. -/
theorem c5_progress_per_triangle (triangles : List Triangle) (center : Vec3)
    (width height : ℕ) (pre : PreprocessorFun) :
    (convert triangles center width height pre).progress_calls =
      (List.range triangles.length).map
        (fun i => ((i + 1 : ℕ) : ℚ) * 100 / (triangles.length : ℚ)) ∧
    (convert triangles center width height pre).progress_calls.length =
      triangles.length ∧
    List.Pairwise (· ≤ ·) (convert triangles center width height pre).progress_calls ∧
    (triangles ≠ [] →
      (convert triangles center width height pre).progress_calls.getLast? = some 100) := by
  refine ⟨convert_progress_calls_eq _ _ _ _ _, ?_, ?_, ?_⟩
  · rw [convert_progress_calls_eq]; simp
  · rw [convert_progress_calls_eq, List.pairwise_map]
    refine (List.pairwise_lt_range _).imp ?_
    intro i j hij
    have h0 : ((i + 1 : ℕ) : ℚ) * 100 ≤ ((j + 1 : ℕ) : ℚ) * 100 := by
      have hc : ((i + 1 : ℕ) : ℚ) ≤ ((j + 1 : ℕ) : ℚ) := by
        exact_mod_cast Nat.succ_le_succ hij.le
      nlinarith
    exact div_le_div_of_nonneg_right h0 (Nat.cast_nonneg _)
  · intro hne
    rw [convert_progress_calls_eq]
    obtain ⟨t, ts, rfl⟩ := List.exists_cons_of_ne_nil hne
    have hne0 : ((ts.length + 1 : ℕ) : ℚ) ≠ 0 := by
      push_cast
      positivity
    simp only [List.length_cons, List.range_succ, List.map_append, List.map_cons,
      List.map_nil, List.getLast?_concat]
    exact congrArg some (mul_div_cancel_left₀ _ hne0)

/-- Witness for claim C5: with one triangle the single report is 100%. -/
theorem c5_progress_per_triangle_witness :
    ([T_point] : List Triangle) ≠ [] ∧
    (convert [T_point] ⟨0, 0, 0⟩ 2 2 NoOpPreprocessor).progress_calls.getLast? =
      some 100 :=
  ⟨by simp,
   (c5_progress_per_triangle [T_point] ⟨0, 0, 0⟩ 2 2 NoOpPreprocessor).2.2.2 (by simp)⟩

/-- Claim C9: a triangle skipped by the preprocessor contributes no obstacles
and no error — the grid writes equal those for the list without it, while the
triangle still counts toward the progress reports. -/
theorem c9_skip_contributes_nothing (l1 l2 : List Triangle) (t : Triangle)
    (center : Vec3) (width height : ℕ) (pre : PreprocessorFun)
    (hskip : pre t width height center = none) :
    (convert (l1 ++ t :: l2) center width height pre).set_obstacle_calls =
      (convert (l1 ++ l2) center width height pre).set_obstacle_calls ∧
    (convert (l1 ++ t :: l2) center width height pre).progress_calls.length =
      (l1 ++ t :: l2).length := by
  constructor
  · rw [convert_set_obstacle_calls_eq, convert_set_obstacle_calls_eq]
    simp [processed_obstacles, List.flatMap_append, List.flatMap_cons, hskip]
  · rw [convert_progress_calls_eq]; simp

/-- Witness for claim C9 with the always-skip preprocessor. -/
theorem c9_skip_contributes_nothing_witness :
    skip_all_pre T_point 2 2 ⟨0, 0, 0⟩ = none ∧
    (convert ([] ++ T_point :: []) ⟨0, 0, 0⟩ 2 2 skip_all_pre).set_obstacle_calls =
      (convert ([] ++ []) ⟨0, 0, 0⟩ 2 2 skip_all_pre).set_obstacle_calls ∧
    (convert ([] ++ T_point :: []) ⟨0, 0, 0⟩ 2 2 skip_all_pre).progress_calls.length =
      ([] ++ T_point :: []).length :=
  ⟨rfl,
   (c9_skip_contributes_nothing [] [] T_point ⟨0, 0, 0⟩ 2 2 skip_all_pre rfl).1,
   (c9_skip_contributes_nothing [] [] T_point ⟨0, 0, 0⟩ 2 2 skip_all_pre rfl).2⟩

lemma rustRound_le (q : ℚ) : ((rustRound q : ℤ) : ℚ) ≤ q + 1 / 2 := by
  unfold rustRound
  split_ifs with h
  · exact Int.floor_le _
  · have := Int.ceil_lt_add_one (q - 1 / 2)
    push_cast at this ⊢
    linarith

lemma le_rustRound (q : ℚ) : q - 1 / 2 ≤ ((rustRound q : ℤ) : ℚ) := by
  unfold rustRound
  split_ifs with h
  · have := Int.sub_one_lt_floor (q + 1 / 2)
    push_cast at this ⊢
    linarith
  · exact Int.le_ceil _

lemma round_trip_axis (c w : ℚ) (half sz : ℕ) (hsz : 2 * half ≤ sz)
    (hin : |c - w| ≤ (half : ℚ)) :
    |((rustRound c - (half : ℤ) +
        ((Nat.min (((half : ℤ) - rustRound (c - w)).toNat) sz : ℕ) : ℤ) : ℤ) : ℚ) - w| ≤ 1 := by
  have hu := rustRound_le (c - w)
  have hl := le_rustRound (c - w)
  have hcu := rustRound_le c
  have hcl := le_rustRound c
  obtain ⟨ha, hb⟩ := abs_le.mp hin
  have hr_le : rustRound (c - w) ≤ (half : ℤ) := by
    have h1 : ((rustRound (c - w) : ℤ) : ℚ) < (((half : ℤ) + 1 : ℤ) : ℚ) := by
      push_cast
      linarith
    have h2 : rustRound (c - w) < (half : ℤ) + 1 := by exact_mod_cast h1
    omega
  have hr_ge : -(half : ℤ) ≤ rustRound (c - w) := by
    have h1 : ((-(half : ℤ) - 1 : ℤ) : ℚ) < ((rustRound (c - w) : ℤ) : ℚ) := by
      push_cast
      linarith
    have h2 : -(half : ℤ) - 1 < rustRound (c - w) := by exact_mod_cast h1
    omega
  have hkle : (((half : ℤ) - rustRound (c - w)).toNat) ≤ sz := by omega
  have hmin : Nat.min (((half : ℤ) - rustRound (c - w)).toNat) sz =
      ((half : ℤ) - rustRound (c - w)).toNat := Nat.min_eq_left hkle
  have htn : (((((half : ℤ) - rustRound (c - w)).toNat : ℕ)) : ℤ) =
      (half : ℤ) - rustRound (c - w) := by omega
  rw [hmin, htn]
  push_cast
  refine abs_le.mpr ⟨by linarith, by linarith⟩

/-- Claim C6: for a world point within the grid's half-extent of the center on
each axis (no clamping), `to_world ∘ to_local` moves the point by at most one
unit per axis. -/
theorem c6_round_trip_within_half_extent (world center : Vec3) (width height : ℕ)
    (hx : |center.x - world.x| ≤ ((width / 2 : ℕ) : ℚ))
    (hy : |center.y - world.y| ≤ ((width / 2 : ℕ) : ℚ))
    (hz : |center.z - world.z| ≤ ((height / 2 : ℕ) : ℚ)) :
    |((((LocalVector.from_world_vector world center width height).to_world_vector
        center width height).x : ℤ) : ℚ) - world.x| ≤ 1 ∧
    |((((LocalVector.from_world_vector world center width height).to_world_vector
        center width height).y : ℤ) : ℚ) - world.y| ≤ 1 ∧
    |((((LocalVector.from_world_vector world center width height).to_world_vector
        center width height).z : ℤ) : ℚ) - world.z| ≤ 1 := by
  refine ⟨?_, ?_, ?_⟩
  · simpa only [LocalVector.from_world_vector, LocalVector.to_world_vector, Vec3.sub_x] using
      round_trip_axis center.x world.x (width / 2) width (by omega) hx
  · simpa only [LocalVector.from_world_vector, LocalVector.to_world_vector, Vec3.sub_y] using
      round_trip_axis center.y world.y (width / 2) width (by omega) hy
  · simpa only [LocalVector.from_world_vector, LocalVector.to_world_vector, Vec3.sub_z] using
      round_trip_axis center.z world.z (height / 2) height (by omega) hz

/-- Witness for claim C6 at a concrete in-range point. -/
theorem c6_round_trip_within_half_extent_witness :
    (|(Vec3.mk 0 0 0).x - (Vec3.mk (1 / 4) 0 0).x| ≤ ((2 / 2 : ℕ) : ℚ)) ∧
    (|(Vec3.mk 0 0 0).y - (Vec3.mk (1 / 4) 0 0).y| ≤ ((2 / 2 : ℕ) : ℚ)) ∧
    (|(Vec3.mk 0 0 0).z - (Vec3.mk (1 / 4) 0 0).z| ≤ ((2 / 2 : ℕ) : ℚ)) ∧
    (|((((LocalVector.from_world_vector (Vec3.mk (1 / 4) 0 0) (Vec3.mk 0 0 0) 2 2).to_world_vector
        (Vec3.mk 0 0 0) 2 2).x : ℤ) : ℚ) - (Vec3.mk (1 / 4) 0 0).x| ≤ 1 ∧
     |((((LocalVector.from_world_vector (Vec3.mk (1 / 4) 0 0) (Vec3.mk 0 0 0) 2 2).to_world_vector
        (Vec3.mk 0 0 0) 2 2).y : ℤ) : ℚ) - (Vec3.mk (1 / 4) 0 0).y| ≤ 1 ∧
     |((((LocalVector.from_world_vector (Vec3.mk (1 / 4) 0 0) (Vec3.mk 0 0 0) 2 2).to_world_vector
        (Vec3.mk 0 0 0) 2 2).z : ℤ) : ℚ) - (Vec3.mk (1 / 4) 0 0).z| ≤ 1) :=
  ⟨by decide, by decide, by decide,
   c6_round_trip_within_half_extent (Vec3.mk (1 / 4) 0 0) (Vec3.mk 0 0 0) 2 2
     (by decide) (by decide) (by decide)⟩

lemma Vec3.dot_zero_left (v : Vec3) : Vec3.dot ⟨0, 0, 0⟩ v = 0 := by
  simp [Vec3.dot]

lemma cross_recenter (a b c p : Vec3) :
    Vec3.cross ((b - p) - (a - p)) ((c - p) - (b - p)) = Vec3.cross (b - a) (c - b) := by
  ext <;> simp [Vec3.cross] <;> ring_nf

lemma plane_rejects_min_zero (w bh : Vec3) :
    plane_rejects_min ⟨0, 0, 0⟩ (-(Vec3.dot ⟨0, 0, 0⟩ w)) bh = false := by
  simp only [plane_rejects_min, Vec3.dot_zero_left, neg_zero, add_zero]
  decide

lemma plane_rejects_max_zero (w bh : Vec3) :
    plane_rejects_max ⟨0, 0, 0⟩ (-(Vec3.dot ⟨0, 0, 0⟩ w)) bh = false := by
  simp only [plane_rejects_max, Vec3.dot_zero_left, neg_zero, add_zero]
  decide

/-- Counterexample to claim C2: the collinear triangle `(0,0,0), (1,1,0),
(2,2,0)` has a zero plane normal, yet `is_inside` reports the voxel at the
origin as intersecting (the segment passes through it). -/
theorem c2_counterexample_degenerate_inside :
    Vec3.cross (T_degenerate.b - T_degenerate.a) (T_degenerate.c - T_degenerate.b) =
      ⟨0, 0, 0⟩ ∧
    T_degenerate.is_inside ⟨0, 0, 0⟩ = true := by
  exact ⟨by decide, by decide⟩

/-- Claim C2 as amended: a triangle whose plane computation yields the zero
normal is never rejected by the plane stage (no error, no division); its
`is_inside` result is decided by the AABB and nine edge-axis tests alone, so
it is not necessarily `false` everywhere. -/
theorem c2_degenerate_passes_plane_stage (t : Triangle) (v : Vec3i)
    (hdeg : Vec3.cross (t.b - t.a) (t.c - t.b) = ⟨0, 0, 0⟩) :
    t.is_inside v = is_inside_no_plane t v := by
  simp only [Triangle.is_inside, is_inside_no_plane]
  rw [cross_recenter, hdeg, plane_rejects_min_zero, plane_rejects_max_zero]
  simp only [Bool.not_false, Bool.true_and, Bool.and_true]

/-- Witness for the amended claim C2 at the collinear triangle. -/
theorem c2_degenerate_passes_plane_stage_witness :
    Vec3.cross (T_degenerate.b - T_degenerate.a) (T_degenerate.c - T_degenerate.b) =
      ⟨0, 0, 0⟩ ∧
    T_degenerate.is_inside ⟨0, 0, 1⟩ = is_inside_no_plane T_degenerate ⟨0, 0, 1⟩ :=
  ⟨by decide, c2_degenerate_passes_plane_stage T_degenerate ⟨0, 0, 1⟩ (by decide)⟩

lemma Vec3.dot_sub (a u v : Vec3) : Vec3.dot a (u - v) = Vec3.dot a u - Vec3.dot a v := by
  simp [Vec3.dot]
  ring

lemma Vec3.dot_neg_left (a v : Vec3) : Vec3.dot (-a) v = -(Vec3.dot a v) := by
  simp [Vec3.dot]
  ring

lemma Vec3.neg_sub (a b : Vec3) : -(a - b) = b - a := by
  ext <;> simp

lemma axisRadius_neg (a : Vec3) : axisRadius (-a) = axisRadius a := by
  simp [axisRadius, abs_neg]

lemma edgeAxisX_neg (e : Vec3) : edgeAxisX (-e) = -(edgeAxisX e) := by
  ext <;> simp [edgeAxisX]

lemma edgeAxisY_neg (e : Vec3) : edgeAxisY (-e) = -(edgeAxisY e) := by
  ext <;> simp [edgeAxisY]

lemma edgeAxisZ_neg (e : Vec3) : edgeAxisZ (-e) = -(edgeAxisZ e) := by
  ext <;> simp [edgeAxisZ]

lemma dot_edgeAxisX_self (e : Vec3) : Vec3.dot (edgeAxisX e) e = 0 := by
  simp [Vec3.dot, edgeAxisX]
  ring

lemma dot_edgeAxisY_self (e : Vec3) : Vec3.dot (edgeAxisY e) e = 0 := by
  simp [Vec3.dot, edgeAxisY]
  ring

lemma dot_edgeAxisZ_self (e : Vec3) : Vec3.dot (edgeAxisZ e) e = 0 := by
  simp [Vec3.dot, edgeAxisZ]
  ring

lemma axis_test_false_eq (ea1 ea2 p1a1 p1a2 p2a1 p2a2 h1 h2 : ℚ) :
    axis_test ea1 ea2 p1a1 p1a2 p2a1 p2a2 h1 h2 false =
      !(decide (Min.min (ea1 * p1a1 - ea2 * p1a2) (ea1 * p2a1 - ea2 * p2a2) >
          |ea1| * h1 + |ea2| * h2 ∨
        Max.max (ea1 * p1a1 - ea2 * p1a2) (ea1 * p2a1 - ea2 * p2a2) <
          -(|ea1| * h1 + |ea2| * h2))) := rfl

lemma axis_test_true_eq (ea1 ea2 p1a1 p1a2 p2a1 p2a2 h1 h2 : ℚ) :
    axis_test ea1 ea2 p1a1 p1a2 p2a1 p2a2 h1 h2 true =
      !(decide (Min.min (ea1 * p1a1 + ea2 * p1a2) (ea1 * p2a1 + ea2 * p2a2) >
          |ea1| * h1 + |ea2| * h2 ∨
        Max.max (ea1 * p1a1 + ea2 * p1a2) (ea1 * p2a1 + ea2 * p2a2) <
          -(|ea1| * h1 + |ea2| * h2))) := rfl

lemma axis_test_zy_iff (p q e : Vec3) :
    axis_test_zy p q ⟨1 / 2, 1 / 2, 1 / 2⟩ e = true ↔ ¬sep2 (edgeAxisX e) p q := by
  have hp : Vec3.dot (edgeAxisX e) p = e.z * p.y - e.y * p.z := by
    simp [Vec3.dot, edgeAxisX]
    ring
  have hq : Vec3.dot (edgeAxisX e) q = e.z * q.y - e.y * q.z := by
    simp [Vec3.dot, edgeAxisX]
    ring
  have hr : axisRadius (edgeAxisX e) = |e.z| * (1 / 2) + |e.y| * (1 / 2) := by
    simp [axisRadius, edgeAxisX, abs_neg]
  rw [axis_test_zy, axis_test_false_eq, Bool.not_eq_true', decide_eq_false_iff_not]
  apply not_congr
  unfold sep2
  rw [hp, hq, hr]

lemma axis_test_mzx_iff (p q e : Vec3) :
    axis_test_mzx p q ⟨1 / 2, 1 / 2, 1 / 2⟩ e = true ↔ ¬sep2 (edgeAxisY e) p q := by
  have hp : Vec3.dot (edgeAxisY e) p = -e.z * p.x + e.x * p.z := by
    simp [Vec3.dot, edgeAxisY]
  have hq : Vec3.dot (edgeAxisY e) q = -e.z * q.x + e.x * q.z := by
    simp [Vec3.dot, edgeAxisY]
  have hr : axisRadius (edgeAxisY e) = |(-e.z)| * (1 / 2) + |e.x| * (1 / 2) := by
    simp [axisRadius, edgeAxisY, abs_neg]
  rw [axis_test_mzx, axis_test_true_eq, Bool.not_eq_true', decide_eq_false_iff_not]
  apply not_congr
  unfold sep2
  rw [hp, hq, hr]

lemma axis_test_yx_iff (p q e : Vec3) :
    axis_test_yx p q ⟨1 / 2, 1 / 2, 1 / 2⟩ e = true ↔ ¬sep2 (edgeAxisZ e) p q := by
  have hp : Vec3.dot (edgeAxisZ e) p = e.y * p.x - e.x * p.y := by
    simp [Vec3.dot, edgeAxisZ]
    ring
  have hq : Vec3.dot (edgeAxisZ e) q = e.y * q.x - e.x * q.y := by
    simp [Vec3.dot, edgeAxisZ]
    ring
  have hr : axisRadius (edgeAxisZ e) = |e.y| * (1 / 2) + |e.x| * (1 / 2) := by
    simp [axisRadius, edgeAxisZ, abs_neg]
  rw [axis_test_yx, axis_test_false_eq, Bool.not_eq_true', decide_eq_false_iff_not]
  apply not_congr
  unfold sep2
  rw [hp, hq, hr]

lemma dot_eq_of_edge (v0 v1 a : Vec3) (h : Vec3.dot a (v1 - v0) = 0) :
    Vec3.dot a v1 = Vec3.dot a v0 := by
  have hs := Vec3.dot_sub a v1 v0
  linarith

lemma sep2_dup01_left (a v0 v1 v2 : Vec3) (h : Vec3.dot a v1 = Vec3.dot a v0) :
    sep2 a v0 v2 ↔ axisSep a v0 v1 v2 := by
  unfold sep2 axisSep
  rw [h, min_self, max_self]

lemma sep2_dup01_right (a v0 v1 v2 : Vec3) (h : Vec3.dot a v1 = Vec3.dot a v0) :
    sep2 a v1 v2 ↔ axisSep a v0 v1 v2 := by
  unfold sep2 axisSep
  rw [h, min_self, max_self]

lemma sep2_dup12_02 (a v0 v1 v2 : Vec3) (h : Vec3.dot a v2 = Vec3.dot a v1) :
    sep2 a v0 v2 ↔ axisSep a v0 v1 v2 := by
  unfold sep2 axisSep
  rw [h, min_assoc, min_self, max_assoc, max_self]

lemma sep2_dup12_01 (a v0 v1 v2 : Vec3) (h : Vec3.dot a v2 = Vec3.dot a v1) :
    sep2 a v0 v1 ↔ axisSep a v0 v1 v2 := by
  unfold sep2 axisSep
  rw [h, min_assoc, min_self, max_assoc, max_self]

lemma sep2_dup02_01 (a v0 v1 v2 : Vec3) (h : Vec3.dot a v2 = Vec3.dot a v0) :
    sep2 a v0 v1 ↔ axisSep a v0 v1 v2 := by
  unfold sep2 axisSep
  rw [h, min_right_comm, min_self, sup_right_comm, max_self]

lemma sep2_dup02_12 (a v0 v1 v2 : Vec3) (h : Vec3.dot a v2 = Vec3.dot a v0) :
    sep2 a v1 v2 ↔ axisSep a v0 v1 v2 := by
  unfold sep2 axisSep
  rw [h, min_right_comm, min_self, sup_right_comm, max_self,
    min_comm (Vec3.dot a v1) (Vec3.dot a v0), max_comm (Vec3.dot a v1) (Vec3.dot a v0)]

lemma axis_e0_zy (v0 v1 v2 : Vec3) :
    axis_test_zy v0 v2 ⟨1 / 2, 1 / 2, 1 / 2⟩ (v1 - v0) = true ↔
      ¬axisSep (edgeAxisX (v1 - v0)) v0 v1 v2 := by
  rw [axis_test_zy_iff]
  exact not_congr (sep2_dup01_left _ _ _ _ (dot_eq_of_edge _ _ _ (dot_edgeAxisX_self _)))

lemma axis_e0_mzx (v0 v1 v2 : Vec3) :
    axis_test_mzx v0 v2 ⟨1 / 2, 1 / 2, 1 / 2⟩ (v1 - v0) = true ↔
      ¬axisSep (edgeAxisY (v1 - v0)) v0 v1 v2 := by
  rw [axis_test_mzx_iff]
  exact not_congr (sep2_dup01_left _ _ _ _ (dot_eq_of_edge _ _ _ (dot_edgeAxisY_self _)))

lemma axis_e0_yx (v0 v1 v2 : Vec3) :
    axis_test_yx v1 v2 ⟨1 / 2, 1 / 2, 1 / 2⟩ (v1 - v0) = true ↔
      ¬axisSep (edgeAxisZ (v1 - v0)) v0 v1 v2 := by
  rw [axis_test_yx_iff]
  exact not_congr (sep2_dup01_right _ _ _ _ (dot_eq_of_edge _ _ _ (dot_edgeAxisZ_self _)))

lemma axis_e1_zy (v0 v1 v2 : Vec3) :
    axis_test_zy v0 v2 ⟨1 / 2, 1 / 2, 1 / 2⟩ (v2 - v1) = true ↔
      ¬axisSep (edgeAxisX (v2 - v1)) v0 v1 v2 := by
  rw [axis_test_zy_iff]
  exact not_congr (sep2_dup12_02 _ _ _ _ (dot_eq_of_edge _ _ _ (dot_edgeAxisX_self _)))

lemma axis_e1_mzx (v0 v1 v2 : Vec3) :
    axis_test_mzx v0 v2 ⟨1 / 2, 1 / 2, 1 / 2⟩ (v2 - v1) = true ↔
      ¬axisSep (edgeAxisY (v2 - v1)) v0 v1 v2 := by
  rw [axis_test_mzx_iff]
  exact not_congr (sep2_dup12_02 _ _ _ _ (dot_eq_of_edge _ _ _ (dot_edgeAxisY_self _)))

lemma axis_e1_yx (v0 v1 v2 : Vec3) :
    axis_test_yx v0 v1 ⟨1 / 2, 1 / 2, 1 / 2⟩ (v2 - v1) = true ↔
      ¬axisSep (edgeAxisZ (v2 - v1)) v0 v1 v2 := by
  rw [axis_test_yx_iff]
  exact not_congr (sep2_dup12_01 _ _ _ _ (dot_eq_of_edge _ _ _ (dot_edgeAxisZ_self _)))

lemma axis_e2_zy (v0 v1 v2 : Vec3) :
    axis_test_zy v0 v1 ⟨1 / 2, 1 / 2, 1 / 2⟩ (v0 - v2) = true ↔
      ¬axisSep (edgeAxisX (v0 - v2)) v0 v1 v2 := by
  rw [axis_test_zy_iff]
  exact not_congr
    (sep2_dup02_01 _ _ _ _ (dot_eq_of_edge _ _ _ (dot_edgeAxisX_self _)).symm)

lemma axis_e2_mzx (v0 v1 v2 : Vec3) :
    axis_test_mzx v0 v1 ⟨1 / 2, 1 / 2, 1 / 2⟩ (v0 - v2) = true ↔
      ¬axisSep (edgeAxisY (v0 - v2)) v0 v1 v2 := by
  rw [axis_test_mzx_iff]
  exact not_congr
    (sep2_dup02_01 _ _ _ _ (dot_eq_of_edge _ _ _ (dot_edgeAxisY_self _)).symm)

lemma axis_e2_yx (v0 v1 v2 : Vec3) :
    axis_test_yx v1 v2 ⟨1 / 2, 1 / 2, 1 / 2⟩ (v0 - v2) = true ↔
      ¬axisSep (edgeAxisZ (v0 - v2)) v0 v1 v2 := by
  rw [axis_test_yx_iff]
  exact not_congr
    (sep2_dup02_12 _ _ _ _ (dot_eq_of_edge _ _ _ (dot_edgeAxisZ_self _)).symm)

lemma min_max_overlaps_eq_false_iff (u0 u1 u2 : ℚ) :
    min_max_overlaps (1 / 2) u0 u1 u2 = false ↔ ¬mmSep u0 u1 u2 := by
  unfold min_max_overlaps mmSep
  simp only [decide_eq_false_iff_not, gt_iff_lt]

lemma mul_ite_half_min (c : ℚ) :
    c * (if 0 < c then -(1 / 2 : ℚ) else (1 / 2 : ℚ)) = -(|c| * (1 / 2)) := by
  split_ifs with hc
  · rw [abs_of_pos hc]; ring
  · rw [abs_of_nonpos (not_lt.mp hc)]; ring

lemma mul_ite_half_max (c : ℚ) :
    c * (if 0 < c then (1 / 2 : ℚ) else -(1 / 2 : ℚ)) = |c| * (1 / 2) := by
  split_ifs with hc
  · rw [abs_of_pos hc]
  · rw [abs_of_nonpos (not_lt.mp hc)]; ring

lemma dot_plane_v_min (n : Vec3) :
    Vec3.dot n (plane_v_min n ⟨1 / 2, 1 / 2, 1 / 2⟩) = -(axisRadius n) := by
  simp only [Vec3.dot, plane_v_min]
  rw [mul_ite_half_min, mul_ite_half_min, mul_ite_half_min]
  unfold axisRadius
  ring

lemma dot_plane_v_max (n : Vec3) :
    Vec3.dot n (plane_v_max n ⟨1 / 2, 1 / 2, 1 / 2⟩) = axisRadius n := by
  simp only [Vec3.dot, plane_v_max]
  rw [mul_ite_half_max, mul_ite_half_max, mul_ite_half_max]
  unfold axisRadius
  ring

lemma plane_rejects_min_eq_false_iff (n : Vec3) (d : ℚ) :
    plane_rejects_min n d ⟨1 / 2, 1 / 2, 1 / 2⟩ = false ↔ d ≤ axisRadius n := by
  unfold plane_rejects_min
  rw [decide_eq_false_iff_not, dot_plane_v_min, not_lt]
  constructor <;> intro <;> linarith

lemma plane_rejects_max_eq_false_iff (n : Vec3) (d : ℚ) :
    plane_rejects_max n d ⟨1 / 2, 1 / 2, 1 / 2⟩ = false ↔ -(axisRadius n) ≤ d := by
  unfold plane_rejects_max
  rw [decide_eq_false_iff_not, dot_plane_v_max, not_lt]
  constructor <;> intro <;> linarith

lemma not_planeSep_iff (n : Vec3) (d : ℚ) :
    ¬planeSep n d ↔ d ≤ axisRadius n ∧ -(axisRadius n) ≤ d := by
  unfold planeSep
  rw [not_lt, abs_le]
  constructor
  · rintro ⟨h1, h2⟩
    exact ⟨h2, h1⟩
  · rintro ⟨h1, h2⟩
    exact ⟨h2, h1⟩

set_option maxHeartbeats 1000000 in
lemma sat_conj_iff (w0 w1 w2 : Vec3) :
    ((!(min_max_overlaps (1 / 2) w0.x w1.x w2.x) &&
      !(min_max_overlaps (1 / 2) w0.y w1.y w2.y) &&
      !(min_max_overlaps (1 / 2) w0.z w1.z w2.z) &&
      !(plane_rejects_min (Vec3.cross (w1 - w0) (w2 - w1))
          (-(Vec3.dot (Vec3.cross (w1 - w0) (w2 - w1)) w0)) ⟨1 / 2, 1 / 2, 1 / 2⟩) &&
      !(plane_rejects_max (Vec3.cross (w1 - w0) (w2 - w1))
          (-(Vec3.dot (Vec3.cross (w1 - w0) (w2 - w1)) w0)) ⟨1 / 2, 1 / 2, 1 / 2⟩) &&
      axis_test_zy w0 w2 ⟨1 / 2, 1 / 2, 1 / 2⟩ (w1 - w0) &&
      axis_test_mzx w0 w2 ⟨1 / 2, 1 / 2, 1 / 2⟩ (w1 - w0) &&
      axis_test_yx w1 w2 ⟨1 / 2, 1 / 2, 1 / 2⟩ (w1 - w0) &&
      axis_test_zy w0 w2 ⟨1 / 2, 1 / 2, 1 / 2⟩ (w2 - w1) &&
      axis_test_mzx w0 w2 ⟨1 / 2, 1 / 2, 1 / 2⟩ (w2 - w1) &&
      axis_test_yx w0 w1 ⟨1 / 2, 1 / 2, 1 / 2⟩ (w2 - w1) &&
      axis_test_zy w0 w1 ⟨1 / 2, 1 / 2, 1 / 2⟩ (w0 - w2) &&
      axis_test_mzx w0 w1 ⟨1 / 2, 1 / 2, 1 / 2⟩ (w0 - w2) &&
      axis_test_yx w1 w2 ⟨1 / 2, 1 / 2, 1 / 2⟩ (w0 - w2)) = true) ↔
    satProp w0 w1 w2 := by
  simp only [Bool.and_eq_true, Bool.not_eq_true']
  rw [min_max_overlaps_eq_false_iff, min_max_overlaps_eq_false_iff,
    min_max_overlaps_eq_false_iff, plane_rejects_min_eq_false_iff,
    plane_rejects_max_eq_false_iff, axis_e0_zy, axis_e0_mzx, axis_e0_yx, axis_e1_zy,
    axis_e1_mzx, axis_e1_yx, axis_e2_zy, axis_e2_mzx, axis_e2_yx]
  unfold satProp edgeOK
  rw [not_planeSep_iff]
  simp only [and_assoc]

lemma is_inside_iff_satProp (t : Triangle) (v : Vec3i) :
    t.is_inside v = true ↔
      satProp (t.a - Vec3i.toVec3 v) (t.b - Vec3i.toVec3 v) (t.c - Vec3i.toVec3 v) :=
  sat_conj_iff (t.a - Vec3i.toVec3 v) (t.b - Vec3i.toVec3 v) (t.c - Vec3i.toVec3 v)

lemma mmSep_swap01 (a b c : ℚ) : mmSep b a c ↔ mmSep a b c := by
  unfold mmSep
  rw [min_comm b a, max_comm b a]

lemma mmSep_swap12 (a b c : ℚ) : mmSep a c b ↔ mmSep a b c := by
  unfold mmSep
  rw [min_right_comm, sup_right_comm]

lemma axisSep_swap01 (a v0 v1 v2 : Vec3) : axisSep a v1 v0 v2 ↔ axisSep a v0 v1 v2 := by
  unfold axisSep
  rw [min_comm (Vec3.dot a v1) (Vec3.dot a v0), max_comm (Vec3.dot a v1) (Vec3.dot a v0)]

lemma axisSep_swap12 (a v0 v1 v2 : Vec3) : axisSep a v0 v2 v1 ↔ axisSep a v0 v1 v2 := by
  unfold axisSep
  rw [min_right_comm, sup_right_comm]

lemma axisSep_neg (a v0 v1 v2 : Vec3) : axisSep (-a) v0 v1 v2 ↔ axisSep a v0 v1 v2 := by
  unfold axisSep
  rw [axisRadius_neg, Vec3.dot_neg_left, Vec3.dot_neg_left, Vec3.dot_neg_left,
    min_neg_neg, min_neg_neg, max_neg_neg, max_neg_neg]
  constructor
  · rintro (h | h)
    · right; linarith
    · left; linarith
  · rintro (h | h)
    · right; linarith
    · left; linarith

lemma edgeOK_neg (e v0 v1 v2 : Vec3) : edgeOK (-e) v0 v1 v2 ↔ edgeOK e v0 v1 v2 := by
  unfold edgeOK
  rw [edgeAxisX_neg, edgeAxisY_neg, edgeAxisZ_neg, axisSep_neg, axisSep_neg, axisSep_neg]

lemma edgeOK_swap01 (e v0 v1 v2 : Vec3) : edgeOK e v1 v0 v2 ↔ edgeOK e v0 v1 v2 := by
  unfold edgeOK
  rw [axisSep_swap01 (edgeAxisX e) v0 v1 v2, axisSep_swap01 (edgeAxisY e) v0 v1 v2,
    axisSep_swap01 (edgeAxisZ e) v0 v1 v2]

lemma edgeOK_swap12 (e v0 v1 v2 : Vec3) : edgeOK e v0 v2 v1 ↔ edgeOK e v0 v1 v2 := by
  unfold edgeOK
  rw [axisSep_swap12 (edgeAxisX e) v0 v1 v2, axisSep_swap12 (edgeAxisY e) v0 v1 v2,
    axisSep_swap12 (edgeAxisZ e) v0 v1 v2]

lemma cross_swap01 (u v w : Vec3) :
    Vec3.cross (u - v) (w - u) = -(Vec3.cross (v - u) (w - v)) := by
  ext <;> simp [Vec3.cross] <;> ring

lemma cross_swap12 (u v w : Vec3) :
    Vec3.cross (w - u) (v - w) = -(Vec3.cross (v - u) (w - v)) := by
  ext <;> simp [Vec3.cross] <;> ring

lemma dot_cross_swap (u v w : Vec3) :
    Vec3.dot (Vec3.cross (v - u) (w - v)) v = Vec3.dot (Vec3.cross (v - u) (w - v)) u := by
  simp [Vec3.dot, Vec3.cross]
  ring

lemma planeSep_neg_left (n : Vec3) (d : ℚ) : planeSep (-n) d ↔ planeSep n d := by
  unfold planeSep
  rw [axisRadius_neg]

lemma planeSep_neg_right (n : Vec3) (d : ℚ) : planeSep n (-d) ↔ planeSep n d := by
  unfold planeSep
  rw [abs_neg]

lemma satProp_swap01_imp (u v w : Vec3) (h : satProp u v w) : satProp v u w := by
  obtain ⟨h1, h2, h3, hp, he0, he1, he2⟩ := h
  refine ⟨?_, ?_, ?_, ?_, ?_, ?_, ?_⟩
  · intro hc; exact h1 ((mmSep_swap01 _ _ _).mp hc)
  · intro hc; exact h2 ((mmSep_swap01 _ _ _).mp hc)
  · intro hc; exact h3 ((mmSep_swap01 _ _ _).mp hc)
  · rw [cross_swap01 u v w, planeSep_neg_left, Vec3.dot_neg_left, neg_neg, dot_cross_swap]
    intro hc
    exact hp ((planeSep_neg_right _ _).mpr hc)
  · rw [show u - v = -(v - u) from (Vec3.neg_sub v u).symm, edgeOK_neg]
    exact (edgeOK_swap01 _ _ _ _).mpr he0
  · rw [show w - u = -(u - w) from (Vec3.neg_sub u w).symm, edgeOK_neg]
    exact (edgeOK_swap01 _ _ _ _).mpr he2
  · rw [show v - w = -(w - v) from (Vec3.neg_sub w v).symm, edgeOK_neg]
    exact (edgeOK_swap01 _ _ _ _).mpr he1

lemma satProp_swap12_imp (u v w : Vec3) (h : satProp u v w) : satProp u w v := by
  obtain ⟨h1, h2, h3, hp, he0, he1, he2⟩ := h
  refine ⟨?_, ?_, ?_, ?_, ?_, ?_, ?_⟩
  · intro hc; exact h1 ((mmSep_swap12 _ _ _).mp hc)
  · intro hc; exact h2 ((mmSep_swap12 _ _ _).mp hc)
  · intro hc; exact h3 ((mmSep_swap12 _ _ _).mp hc)
  · rw [cross_swap12 u v w, planeSep_neg_left, Vec3.dot_neg_left, neg_neg]
    intro hc
    exact hp ((planeSep_neg_right _ _).mpr hc)
  · rw [show w - u = -(u - w) from (Vec3.neg_sub u w).symm, edgeOK_neg]
    exact (edgeOK_swap12 _ _ _ _).mpr he2
  · rw [show v - w = -(w - v) from (Vec3.neg_sub w v).symm, edgeOK_neg]
    exact (edgeOK_swap12 _ _ _ _).mpr he1
  · rw [show u - v = -(v - u) from (Vec3.neg_sub v u).symm, edgeOK_neg]
    exact (edgeOK_swap12 _ _ _ _).mpr he0

/-- Claim C8: `is_inside` is invariant under every permutation of the
triangle's three vertices — the intersection result depends on the triangle as
a vertex set, not on vertex order. -/
theorem c8_is_inside_vertex_order_free (t : Triangle) (v : Vec3i) :
    (Triangle.mk t.a t.c t.b).is_inside v = t.is_inside v ∧
    (Triangle.mk t.b t.a t.c).is_inside v = t.is_inside v ∧
    (Triangle.mk t.b t.c t.a).is_inside v = t.is_inside v ∧
    (Triangle.mk t.c t.a t.b).is_inside v = t.is_inside v ∧
    (Triangle.mk t.c t.b t.a).is_inside v = t.is_inside v := by
  refine ⟨?_, ?_, ?_, ?_, ?_⟩
  · exact Bool.eq_iff_iff.mpr ((is_inside_iff_satProp _ v).trans
      (Iff.trans
        ⟨fun h => satProp_swap12_imp _ _ _ h, fun h => satProp_swap12_imp _ _ _ h⟩
        (is_inside_iff_satProp t v).symm))
  · exact Bool.eq_iff_iff.mpr ((is_inside_iff_satProp _ v).trans
      (Iff.trans
        ⟨fun h => satProp_swap01_imp _ _ _ h, fun h => satProp_swap01_imp _ _ _ h⟩
        (is_inside_iff_satProp t v).symm))
  · exact Bool.eq_iff_iff.mpr ((is_inside_iff_satProp _ v).trans
      (Iff.trans
        ⟨fun h => satProp_swap01_imp _ _ _ (satProp_swap12_imp _ _ _ h),
         fun h => satProp_swap12_imp _ _ _ (satProp_swap01_imp _ _ _ h)⟩
        (is_inside_iff_satProp t v).symm))
  · exact Bool.eq_iff_iff.mpr ((is_inside_iff_satProp _ v).trans
      (Iff.trans
        ⟨fun h => satProp_swap12_imp _ _ _ (satProp_swap01_imp _ _ _ h),
         fun h => satProp_swap01_imp _ _ _ (satProp_swap12_imp _ _ _ h)⟩
        (is_inside_iff_satProp t v).symm))
  · exact Bool.eq_iff_iff.mpr ((is_inside_iff_satProp _ v).trans
      (Iff.trans
        ⟨fun h => satProp_swap01_imp _ _ _ (satProp_swap12_imp _ _ _ (satProp_swap01_imp _ _ _ h)),
         fun h => satProp_swap01_imp _ _ _ (satProp_swap12_imp _ _ _ (satProp_swap01_imp _ _ _ h))⟩
        (is_inside_iff_satProp t v).symm))
